import Mathlib

/-!
Verification of the RFID card-registry engine
(`components/rfid_manager/rfid_manager.c` together with its header
`rfid_manager.h`) against its natural-language specification.

The C module keeps a fixed array `rfid_database[RFID_MAX_CARDS]` of card
records, guarded by a FreeRTOS mutex, persisted to a SPIFFS file, with a
write-coalescing cache (`is_dirty` flag plus a single-shot timer).

Shallow embedding conventions:
* the fixed C array is a `List Card` (length `RFID_MAX_CARDS` in every
  reachable state; the length is carried as a hypothesis where it matters);
* machine integers are `Nat` (`card_id : uint32_t`, `active : uint8_t`,
  `timestamp : uint32_t`; no arithmetic in the source can overflow them);
* the `name[32]` C char array is a `List Nat` of its 32 bytes;
* success/failure of a mutex take within its bounded timeout is an explicit
  `lockOk : Bool` argument; the module is modelled post-`init`, i.e. the
  mutex handle itself exists (`rfid_mutex != NULL`);
* success of the `fopen`/`fwrite`/`fclose` sequence of a save is an explicit
  `saveOk : Bool` argument; a failed save leaves the modelled file unchanged
  (the source leaves it in an unspecified, possibly partially-written state,
  which no claim inspects);
* the backing SPIFFS file is `Option (List Card)`: `none` when absent,
  `some content` when present, with size measured in whole card records
  (the source compares `file_size` against `sizeof(rfid_card_t) * RFID_MAX_CARDS`).
-/

set_option autoImplicit false
set_option maxRecDepth 8000

namespace RfidManager

/-- Constant `RFID_MAX_CARDS` from `rfid_manager.h`. -/
def RFID_MAX_CARDS : Nat := 200

/-- Constant `RFID_CARD_NAME_LEN` from `rfid_manager.h`. -/
def RFID_CARD_NAME_LEN : Nat := 32

/-- Constant `RFID_DEFAULT_CACHE_TIMEOUT_MS` from `rfid_manager.h`. -/
def RFID_DEFAULT_CACHE_TIMEOUT_MS : Nat := 5000

/-- The ESP-IDF error codes actually returned by the module.
`invalidState` (`ESP_ERR_INVALID_STATE`) is the code returned when an id
already exists in the database ("already exists" in the source's log
message); the header also declares `RFID_MANAGER_ERR_DUPLICATE_ID`, but no
code path ever returns it. -/
inductive EspErr where
  | ok
  | fail
  | invalidArg
  | invalidState
  | noMem
  | notFound
  | invalidSize
  deriving Repr, DecidableEq

/-- Structure `rfid_card_t` from `rfid_manager.h`.
`active` is the `uint8_t` flag (truthy iff nonzero); `name` is the raw
32-byte `char` array. -/
structure Card where
  card_id : Nat
  active : Nat
  name : List Nat
  timestamp : Nat
  deriving Repr, DecidableEq

/-- An all-zero record: what `memset(..., 0, ...)` leaves in a slot. -/
def emptyCard : Card :=
  { card_id := 0, active := 0, name := List.replicate RFID_CARD_NAME_LEN 0, timestamp := 0 }

/-- Bytes of a Lean string literal, used to transcribe C string literals. -/
def strBytes (s : String) : List Nat := s.toList.map Char.toNat

/-- A C string literal stored in a `char[RFID_CARD_NAME_LEN]` initializer:
the bytes followed by zero padding up to the array length. -/
def padName (bs : List Nat) : List Nat :=
  bs ++ List.replicate (RFID_CARD_NAME_LEN - bs.length) 0

/-- Effect on the 32-byte `name` field of
`strncpy(dst, src, RFID_CARD_NAME_LEN - 1); dst[RFID_CARD_NAME_LEN - 1] = 0;`
in `rfid_manager_add_card`: the first 31 bytes are the source bytes
truncated to 31 and zero-padded, and byte 31 is forced to 0. -/
def storeName (src : List Nat) : List Nat :=
  let t := src.take (RFID_CARD_NAME_LEN - 1)
  t ++ List.replicate (RFID_CARD_NAME_LEN - 1 - t.length) 0 ++ [0]

/-- The `default_cards` static array from `rfid_manager.c`. -/
def default_cards : List Card :=
  [ { card_id := 0x12345678, active := 1, name := padName (strBytes "Admin Card"), timestamp := 0 },
    { card_id := 0x87654321, active := 1, name := padName (strBytes "User Card 1"), timestamp := 0 },
    { card_id := 0xABCDEF00, active := 1, name := padName (strBytes "User Card 2"), timestamp := 0 } ]

/-- The full 200-slot array after `memset` to zero and copying the
defaults into the first slots (as done by `rfid_manager_format_database`
and `rfid_manager_load_defaults`; the explicit `name[31] = 0` there is a
no-op because the static initializers already zero-pad the names). -/
def defaultsTable : List Card :=
  default_cards ++ List.replicate (RFID_MAX_CARDS - default_cards.length) emptyCard

/-- The module's mutable state: the in-memory database, the cache flags
and configuration, and the backing file. `timerCreated` models
`rfid_write_timer != NULL`, `timerRunning` whether the single-shot write
timer is currently armed. -/
structure RfidState where
  db : List Card
  is_dirty : Bool
  timerCreated : Bool
  timerRunning : Bool
  rfid_write_timeout_ms : Nat
  file : Option (List Card)
  deriving Repr, DecidableEq

/-- Function `rfid_manager_save_to_file`: writes the whole in-memory array to the
backing file. `saveOk` covers the mutex take inside the function and the
`fopen`/`fwrite`/`fclose` sequence succeeding; on failure the modelled
file is left unchanged and `ESP_FAIL` is returned. -/
def saveToFile (saveOk : Bool) (s : RfidState) : EspErr × RfidState :=
  if saveOk then (.ok, { s with file := some s.db }) else (.fail, s)

/-- Function `rfid_manager_write_into_memory`: if dirty, saves and clears the
dirty flag on success; a failed save leaves the dirty flag set and
returns `ESP_FAIL`. (The recursive mutex take succeeds in the modelled
call contexts, which already hold the mutex.) -/
def writeIntoMemory (saveOk : Bool) (s : RfidState) : EspErr × RfidState :=
  if s.is_dirty then
    match saveToFile saveOk s with
    | (.ok, s1) => (.ok, { s1 with is_dirty := false })
    | (_, s1) => (.fail, s1)
  else (.ok, s)

/-- The identical timer block at the end of `rfid_manager_add_card` and
`rfid_manager_remove_card`: stop the timer, then either re-arm it
(`timeout > 0`), or — caching disabled — write immediately and return the
write's result. -/
def startOrWrite (saveOk : Bool) (s : RfidState) : EspErr × RfidState :=
  if s.timerCreated then
    let s1 := { s with timerRunning := false }
    if s1.rfid_write_timeout_ms > 0 then (.ok, { s1 with timerRunning := true })
    else writeIntoMemory saveOk s1
  else (.ok, s)

/-- The scan in `rfid_manager_add_card` for the first slot with
`card_id == 0 || active == 0`. -/
def firstFree : List Card → Option Nat
  | [] => none
  | c :: rest =>
    if c.card_id == 0 || c.active == 0 then some 0
    else (firstFree rest).map (· + 1)

/-- The record written into the chosen slot by `rfid_manager_add_card`. -/
def mkAddedCard (card_id : Nat) (ns : List Nat) (now : Nat) : Card :=
  { card_id := card_id, active := 1, name := storeName ns, timestamp := now }

/-- Function `rfid_manager_add_card`. `name = none` models a NULL name pointer;
`now` is the value `time()` produces at the insertion. The duplicate scan
(`card_id == card_id && card_id != 0`) and the first-free scan are taken
verbatim from the source; note the source never rejects `card_id == 0`
itself. -/
def addCard (lockOk : Bool) (card_id : Nat) (name : Option (List Nat)) (now : Nat)
    (saveOk : Bool) (s : RfidState) : EspErr × RfidState :=
  if !lockOk then (.fail, s)
  else
    match name with
    | none => (.invalidArg, s)
    | some ns =>
      if s.db.any (fun c => c.card_id == card_id && c.card_id != 0) then (.invalidState, s)
      else
        match firstFree s.db with
        | some j =>
          startOrWrite saveOk
            { s with db := s.db.set j (mkAddedCard card_id ns now), is_dirty := true }
        | none => (.noMem, s)

/-- The scan in `rfid_manager_remove_card` and `rfid_manager_check_card`
for the first slot with a matching id that is active. -/
def findActiveIdx (card_id : Nat) : List Card → Option Nat
  | [] => none
  | c :: rest =>
    if c.card_id == card_id && c.active != 0 then some 0
    else (findActiveIdx card_id rest).map (· + 1)

/-- In-place update of the record at one index (the C code writes one
field of `rfid_database[i]`). -/
def modifyIdx (f : Card → Card) : Nat → List Card → List Card
  | _, [] => []
  | 0, c :: rest => f c :: rest
  | n + 1, c :: rest => c :: modifyIdx f n rest

/-- Function `rfid_manager_remove_card`: marks the first active matching slot
inactive (name and timestamp left intact), marks dirty, and runs the same
timer block as `add`. -/
def removeCard (lockOk : Bool) (card_id : Nat) (saveOk : Bool) (s : RfidState) :
    EspErr × RfidState :=
  if !lockOk then (.fail, s)
  else
    match findActiveIdx card_id s.db with
    | some j =>
      startOrWrite saveOk
        { s with db := modifyIdx (fun c => { c with active := 0 }) j s.db, is_dirty := true }
    | none => (.notFound, s)

/-- Function `rfid_manager_check_card`: on an active match updates that slot's
timestamp in RAM (it does not mark the cache dirty) and returns `true`;
returns `false` otherwise, including on mutex timeout. -/
def checkCard (lockOk : Bool) (card_id : Nat) (now : Nat) (s : RfidState) :
    Bool × RfidState :=
  if !lockOk then (false, s)
  else
    match findActiveIdx card_id s.db with
    | some j =>
      (true, { s with db := modifyIdx (fun c => { c with timestamp := now }) j s.db })
    | none => (false, s)

/-- Function `rfid_manager_get_card_count`: recount of slots with
`active && card_id != 0`; returns 0 on mutex timeout. -/
def getCardCount (lockOk : Bool) (s : RfidState) : Nat :=
  if lockOk then s.db.countP (fun c => c.active != 0 && c.card_id != 0) else 0

/-- Function `rfid_manager_list_cards` (with non-NULL buffer arguments): copies
active nonzero-id records in slot order up to the buffer size, returning
the copied records and their number; on mutex timeout returns `ESP_FAIL`
with `*num_cards_copied = 0` and nothing copied. -/
def listCards (lockOk : Bool) (buffer_size : Nat) (s : RfidState) :
    EspErr × List Card × Nat :=
  if lockOk then
    let copied := (s.db.filter (fun c => c.active != 0 && c.card_id != 0)).take buffer_size
    (.ok, copied, copied.length)
  else (.fail, [], 0)

/-- Function `rfid_manager_format_database`: clears the array, copies the default
cards into the first slots, stops any pending timer, clears the dirty
flag, and writes the table to the file directly (never consulting the
cache timeout). A failed write returns `ESP_FAIL` with the in-memory
reset already done. -/
def formatDatabase (lockOk saveOk : Bool) (s : RfidState) : EspErr × RfidState :=
  if !lockOk then (.fail, s)
  else
    let s1 := { s with db := defaultsTable }
    let s2 := if s1.timerCreated then { s1 with timerRunning := false } else s1
    let s3 := { s2 with is_dirty := false }
    if saveOk then (.ok, { s3 with file := some s3.db }) else (.fail, s3)

/-- Function `rfid_manager_load_from_file`: `ESP_ERR_NOT_FOUND` if the file is
absent; otherwise the live array is `memset` to zero and, if the file
size matches exactly `RFID_MAX_CARDS` records, the file is read directly
into the live array (`ESP_OK`); on a size mismatch the function returns
`ESP_ERR_INVALID_SIZE`, leaving the just-zeroed live array behind. There
is no scratch buffer in the source. -/
def loadFromFile (s : RfidState) : EspErr × RfidState :=
  match s.file with
  | none => (.notFound, s)
  | some content =>
    let cleared := { s with db := List.replicate RFID_MAX_CARDS emptyCard }
    if content.length = RFID_MAX_CARDS then (.ok, { cleared with db := content })
    else (.invalidSize, cleared)

/-- Function `rfid_manager_set_cache_timeout`: if the timeout is being decreased
while dirty (and the timer handle exists), the running timer is stopped
and either re-armed with the shorter timeout or — for a new timeout of
0 — the table is saved immediately and the dirty flag cleared
*regardless of the save's result* (the source ignores the return value of
`rfid_manager_save_to_file` there). -/
def setCacheTimeout (lockOk : Bool) (timeout_ms : Nat) (saveOk : Bool) (s : RfidState) :
    EspErr × RfidState :=
  if !lockOk then (.fail, s)
  else
    let s1 :=
      if timeout_ms < s.rfid_write_timeout_ms && s.is_dirty && s.timerCreated then
        let sStopped := { s with timerRunning := false }
        if timeout_ms > 0 then { sStopped with timerRunning := true }
        else
          let s2 := (saveToFile saveOk sStopped).2
          { s2 with is_dirty := false }
      else s
    (.ok, { s1 with rfid_write_timeout_ms := timeout_ms })

/-- Function `rfid_manager_flush_cache`: stops any pending timer; if dirty, saves
and clears the dirty flag only on success, otherwise returns the save's
error with the dirty flag still set. -/
def flushCache (lockOk saveOk : Bool) (s : RfidState) : EspErr × RfidState :=
  if !lockOk then (.fail, s)
  else
    let s1 := if s.timerCreated then { s with timerRunning := false } else s
    if s1.is_dirty then
      match saveToFile saveOk s1 with
      | (.ok, s2) => (.ok, { s2 with is_dirty := false })
      | (e, s2) => (e, s2)
    else (.ok, s1)

/-- Uppercase hexadecimal digit, as produced by the `%lX` conversion. -/
def hexDigit (n : Nat) : Char :=
  if n < 10 then Char.ofNat (48 + n) else Char.ofNat (55 + n)

/-- Digits of `n` in base 16 (most significant first), prepended to `acc`. -/
def toHexCore (n : Nat) (acc : List Char) : List Char :=
  if h : n / 16 = 0 then hexDigit (n % 16) :: acc
  else
    have : n / 16 < n :=
      Nat.div_lt_self (Nat.pos_of_ne_zero fun h0 => h (by simp [h0])) (by omega)
    toHexCore (n / 16) (hexDigit (n % 16) :: acc)
termination_by n

/-- Format `%lX` rendering of a `uint32_t` value. -/
def toHex (n : Nat) : String := ⟨toHexCore n []⟩

/-- The bytes `%s` prints from a `char[32]` field: those before the first NUL. -/
def cStrBytes (bs : List Nat) : List Nat := bs.takeWhile (· != 0)

/-- Those bytes as a string. -/
def nameStr (bs : List Nat) : String := ⟨(cStrBytes bs).map Char.ofNat⟩

/-- The `"{\"cards\":["` opening written by `rfid_manager_get_card_list_json`. -/
def jsonHeader : String := "\x7b\"cards\":["

/-- One `{"id":"0x…","nm":"…","ts":…}` record as formatted by the
`snprintf` inside the card loop. -/
def jsonEntry (c : Card) : String :=
  "\x7b\"id\":\"0x" ++ toHex c.card_id ++ "\",\"nm\":\"" ++ nameStr c.name ++
    "\",\"ts\":" ++ toString c.timestamp ++ "\x7d"

/-- Model of `snprintf` truncation of everything written so far to the buffer
capacity. Only the initial header write can actually truncate; every
later write is guarded by an explicit length check in the source. -/
def truncBuf (bufLen : Nat) (out : String) : String := out.take (bufLen - 1)

/-- The card loop plus closing bracket of `rfid_manager_get_card_list_json`:
`acc` is the buffer content so far, `isComma` whether a record has been
emitted, `len` the accumulated `snprintf` length counter. -/
def jsonLoop (bufLen : Nat) : List Card → String → Bool → Nat → EspErr × Option String
  | [], acc, _, len =>
    if len + 3 ≥ bufLen then (.fail, some (truncBuf bufLen acc))
    else (.ok, some (truncBuf bufLen (acc ++ "]\x7d")))
  | c :: rest, acc, isComma, len =>
    if c.active != 0 && c.card_id != 0 then
      if len + 80 ≥ bufLen then (.fail, some (truncBuf bufLen acc))
      else
        let piece := (if isComma then "," else "") ++ jsonEntry c
        jsonLoop bufLen rest (acc ++ piece) true (len + piece.length)
    else jsonLoop bufLen rest acc isComma len

/-- Function `rfid_manager_get_card_list_json` (with a non-NULL buffer and the
module initialized). Returns the error code and the buffer's new content
(`none` = buffer left untouched). Note, from the source: when the mutex
take times out, control skips the whole body and falls through to
`return ret` with `ret` still at its initialization value `ESP_OK`, so a
lock timeout is reported as success with the buffer untouched. -/
def getCardListJson (lockOk : Bool) (bufLen : Nat) (s : RfidState) :
    EspErr × Option String :=
  if bufLen = 0 then (.fail, none)
  else if !lockOk then (.ok, none)
  else jsonLoop bufLen s.db jsonHeader false jsonHeader.length

/-- One completed call of a mutating API entry point, together with the
environment's behavior during that call (mutex-take outcome, `time()`
value, file-write outcome). -/
inductive Op where
  | add (lockOk : Bool) (card_id : Nat) (name : Option (List Nat)) (now : Nat) (saveOk : Bool)
  | remove (lockOk : Bool) (card_id : Nat) (saveOk : Bool)
  | check (lockOk : Bool) (card_id : Nat) (now : Nat)
  | format (lockOk : Bool) (saveOk : Bool)

/-- State after one completed operation. -/
def execOp (s : RfidState) : Op → RfidState
  | .add lockOk card_id name now saveOk => (addCard lockOk card_id name now saveOk s).2
  | .remove lockOk card_id saveOk => (removeCard lockOk card_id saveOk s).2
  | .check lockOk card_id now => (checkCard lockOk card_id now s).2
  | .format lockOk saveOk => (formatDatabase lockOk saveOk s).2

/-- State after a sequence of completed operations. -/
def execOps (ops : List Op) (s : RfidState) : RfidState := ops.foldl execOp s

/-- Number of slots that hold `id` as an active record. -/
def countActive (db : List Card) (id : Nat) : Nat :=
  db.countP (fun c => c.card_id == id && c.active != 0)

/-- Ids of the active slots, in slot order. -/
def activeIds (db : List Card) : List Nat :=
  (db.filter (fun c => c.active != 0)).map Card.card_id

/-- The module state right after a successful `format` with the default
5-second cache timeout: a convenient concrete reachable state. -/
def defState : RfidState :=
  { db := defaultsTable, is_dirty := false, timerCreated := true,
    timerRunning := false, rfid_write_timeout_ms := RFID_DEFAULT_CACHE_TIMEOUT_MS,
    file := some defaultsTable }

/-- A state whose database is entirely empty (all-zero slots). -/
def emptyState : RfidState :=
  { db := List.replicate RFID_MAX_CARDS emptyCard, is_dirty := false,
    timerCreated := true, timerRunning := false,
    rfid_write_timeout_ms := RFID_DEFAULT_CACHE_TIMEOUT_MS, file := none }

/-- A concrete state whose table holds one active record, one tombstone
(`active=0` with a nonzero id) and otherwise never-used all-zero slots. -/
def tombstoneState : RfidState :=
  { db :=
      { card_id := 0xAABB, active := 1, name := storeName (strBytes "kept"), timestamp := 5 } ::
      { card_id := 0xCCDD, active := 0, name := storeName (strBytes "gone"), timestamp := 6 } ::
      List.replicate (RFID_MAX_CARDS - 2) emptyCard,
    is_dirty := false, timerCreated := true, timerRunning := false,
    rfid_write_timeout_ms := RFID_DEFAULT_CACHE_TIMEOUT_MS, file := none }

/-! ### Helper lemmas -/

theorem countP_set_le (p : Card → Bool) (l : List Card) :
    ∀ (j : Nat) (c : Card),
      (l.set j c).countP p ≤ l.countP p + (if p c then 1 else 0) := by
  induction l with
  | nil => intro j c; simp
  | cons a t ih =>
    intro j c
    cases j with
    | zero =>
      simp only [List.set_cons_zero, List.countP_cons]
      split_ifs <;> omega
    | succ n =>
      simp only [List.set_cons_succ, List.countP_cons]
      have h := ih n c
      split_ifs at h ⊢ <;> omega

theorem countP_modifyIdx_le (p : Card → Bool) (f : Card → Card)
    (hf : ∀ c, p (f c) = false) (l : List Card) :
    ∀ j, (modifyIdx f j l).countP p ≤ l.countP p := by
  induction l with
  | nil => intro j; simp [modifyIdx]
  | cons a t ih =>
    intro j
    cases j with
    | zero =>
      simp only [modifyIdx, List.countP_cons, hf]
      split_ifs <;> first | omega | simp_all
    | succ n =>
      simp only [modifyIdx, List.countP_cons]
      have h := ih n
      split_ifs <;> omega

theorem countP_modifyIdx_eq (p : Card → Bool) (f : Card → Card)
    (hf : ∀ c, p (f c) = p c) (l : List Card) :
    ∀ j, (modifyIdx f j l).countP p = l.countP p := by
  induction l with
  | nil => intro j; simp [modifyIdx]
  | cons a t ih =>
    intro j
    cases j with
    | zero => simp [modifyIdx, List.countP_cons, hf]
    | succ n => simp [modifyIdx, List.countP_cons, ih n]

theorem countActive_eq_count (l : List Card) (id : Nat) :
    countActive l id = (activeIds l).count id := by
  rw [countActive, activeIds, List.count_eq_countP, List.countP_map, List.countP_filter]
  rfl

theorem activeIds_defaults : activeIds defaultsTable = [0x12345678, 0x87654321, 0xABCDEF00] := by
  rfl

theorem uniqueActive_defaults (id : Nat) : countActive defaultsTable id ≤ 1 := by
  rw [countActive_eq_count, activeIds_defaults]
  exact List.nodup_iff_count_le_one.mp (by decide) id

theorem countActive_emptyTable (id : Nat) :
    countActive (List.replicate RFID_MAX_CARDS emptyCard) id = 0 := by
  rw [countActive_eq_count]
  have h : activeIds (List.replicate RFID_MAX_CARDS emptyCard) = [] := by rfl
  simp [h]

theorem uniqueActive_emptyState (id : Nat) (_hid : id ≠ 0) :
    countActive emptyState.db id ≤ 1 := by
  have h := countActive_emptyTable id
  simp only [emptyState] at *
  omega

/-- The cache/timer logic after a mutation never changes the in-memory array. -/
theorem startOrWrite_db (saveOk : Bool) (s : RfidState) :
    ((startOrWrite saveOk s).2).db = s.db := by
  cases hT : s.timerCreated <;>
    cases hD : s.is_dirty <;>
    cases hS : saveOk <;>
    cases hW : s.rfid_write_timeout_ms <;>
    simp [startOrWrite, writeIntoMemory, saveToFile, hT, hD, hS, hW]

/-- What `add` can do to the array: nothing, or write the new record into
one slot of a database whose slots nowhere hold the added id as a nonzero
`card_id`. -/
theorem addCard_db (lockOk : Bool) (cid : Nat) (name : Option (List Nat)) (now : Nat)
    (saveOk : Bool) (s : RfidState) :
    ((addCard lockOk cid name now saveOk s).2).db = s.db ∨
    ∃ ns j, name = some ns ∧
      (s.db.any fun c => c.card_id == cid && c.card_id != 0) = false ∧
      firstFree s.db = some j ∧
      ((addCard lockOk cid name now saveOk s).2).db = s.db.set j (mkAddedCard cid ns now) := by
  unfold addCard
  cases lockOk with
  | false => left; rfl
  | true =>
    cases name with
    | none => left; rfl
    | some ns =>
      by_cases hdup : (s.db.any fun c => c.card_id == cid && c.card_id != 0) = true
      · left; simp [hdup]
      · cases hff : firstFree s.db with
        | none => left; simp [hdup, hff]
        | some j =>
          right
          refine ⟨ns, j, rfl, by simpa using hdup, rfl, ?_⟩
          simp [hdup, hff, startOrWrite_db]

/-- What `remove` can do to the array: nothing, or clear the `active`
flag of one slot. -/
theorem removeCard_db (lockOk : Bool) (cid : Nat) (saveOk : Bool) (s : RfidState) :
    ((removeCard lockOk cid saveOk s).2).db = s.db ∨
    ∃ j, ((removeCard lockOk cid saveOk s).2).db =
      modifyIdx (fun c => { c with active := 0 }) j s.db := by
  unfold removeCard
  cases lockOk with
  | false => left; rfl
  | true =>
    cases hfa : findActiveIdx cid s.db with
    | none => left; simp [hfa]
    | some j => right; exact ⟨j, by simp [hfa, startOrWrite_db]⟩

/-- What `check` can do to the array: nothing, or update one slot's
timestamp. -/
theorem checkCard_db (lockOk : Bool) (cid : Nat) (now : Nat) (s : RfidState) :
    ((checkCard lockOk cid now s).2).db = s.db ∨
    ∃ j, ((checkCard lockOk cid now s).2).db =
      modifyIdx (fun c => { c with timestamp := now }) j s.db := by
  unfold checkCard
  cases lockOk with
  | false => left; rfl
  | true =>
    cases hfa : findActiveIdx cid s.db with
    | none => left; simp [hfa]
    | some j => right; exact ⟨j, by simp [hfa]⟩

/-- What `format` can do to the array: nothing, or reset it to the
default table. -/
theorem formatDatabase_db (lockOk saveOk : Bool) (s : RfidState) :
    ((formatDatabase lockOk saveOk s).2).db = s.db ∨
    ((formatDatabase lockOk saveOk s).2).db = defaultsTable := by
  unfold formatDatabase
  cases lockOk with
  | false => left; rfl
  | true =>
    right
    cases hT : s.timerCreated <;> cases hS : saveOk <;> simp [hT, hS]

/-- One completed operation preserves the at-most-one-active-slot-per-
nonzero-id property. -/
theorem execOp_uniqueActive (s : RfidState) (o : Op) (id : Nat) (hid : id ≠ 0)
    (h : countActive s.db id ≤ 1) : countActive (execOp s o).db id ≤ 1 := by
  cases o with
  | add lockOk cid name now saveOk =>
    rcases addCard_db lockOk cid name now saveOk s with hdb | ⟨ns, j, _, hdup, _, hdb⟩
    · simpa [execOp, hdb] using h
    · simp only [execOp, hdb]
      rw [List.any_eq_false] at hdup
      by_cases hcid : cid = id
      · subst hcid
        have hzero : countActive s.db cid = 0 := by
          rw [countActive]
          rw [List.countP_eq_zero]
          intro c hc
          have := hdup c hc
          simp only [Bool.and_eq_true, bne_iff_ne, ne_eq, beq_iff_eq] at this ⊢
          intro hfalse
          exact this ⟨hfalse.1, by rw [hfalse.1]; exact hid⟩
        have hle := countP_set_le (fun c => c.card_id == cid && c.active != 0) s.db j
          (mkAddedCard cid ns now)
        rw [countActive] at hzero ⊢
        rw [hzero] at hle
        split_ifs at hle <;> omega
      · have hle := countP_set_le (fun c => c.card_id == id && c.active != 0) s.db j
          (mkAddedCard cid ns now)
        have hpc : ((mkAddedCard cid ns now).card_id == id &&
            (mkAddedCard cid ns now).active != 0) = false := by
          simp [mkAddedCard, hcid]
        rw [hpc] at hle
        simp only [if_neg (by simp : ¬ (false = true))] at hle
        rw [countActive] at h ⊢
        omega
  | remove lockOk cid saveOk =>
    rcases removeCard_db lockOk cid saveOk s with hdb | ⟨j, hdb⟩
    · simpa [execOp, hdb] using h
    · simp only [execOp, hdb]
      have hle := countP_modifyIdx_le (fun c => c.card_id == id && c.active != 0)
        (fun c => { c with active := 0 }) (fun c => by simp) s.db j
      rw [countActive] at h ⊢
      omega
  | check lockOk cid now =>
    rcases checkCard_db lockOk cid now s with hdb | ⟨j, hdb⟩
    · simpa [execOp, hdb] using h
    · simp only [execOp, hdb]
      have heq := countP_modifyIdx_eq (fun c => c.card_id == id && c.active != 0)
        (fun c => { c with timestamp := now }) (fun c => by simp) s.db j
      rw [countActive] at h ⊢
      omega
  | format lockOk saveOk =>
    rcases formatDatabase_db lockOk saveOk s with hdb | hdb
    · simpa [execOp, hdb] using h
    · simp only [execOp, hdb]
      exact uniqueActive_defaults id

/-- C1: For every sequence of completed operations (`add`, `remove`,
`check`, `format`) starting from a table in which every nonzero id is
active in at most one slot (in particular the empty table, or a table
just loaded from a file that a save of such a table produced), and for
every nonzero id, at most one slot simultaneously has `card_id` equal to
that id and a set `active` flag. -/
theorem uniqueActive_invariant (ops : List Op) (s0 : RfidState)
    (h0 : ∀ id, id ≠ 0 → countActive s0.db id ≤ 1) :
    ∀ id, id ≠ 0 → countActive (execOps ops s0).db id ≤ 1 := by
  induction ops generalizing s0 with
  | nil => exact h0
  | cons o rest ih =>
    intro id hid
    exact ih (execOp s0 o)
      (fun id2 hid2 => execOp_uniqueActive s0 o id2 hid2 (h0 id2 hid2)) id hid

/-- Witness for **C1**: a concrete run from the empty table — format,
two adds (one a duplicate attempt), a remove and a check — after which id
`0x12345678` is active in at most one slot. -/
theorem uniqueActive_invariant_witness :
    countActive (execOps
      [Op.format true true,
       Op.add true 0x12345678 (some (strBytes "again")) 11 true,
       Op.add true 0xAABB (some (strBytes "new card")) 12 true,
       Op.remove true 0x87654321 true,
       Op.check true 0xAABB 13] emptyState).db 0x12345678 ≤ 1 :=
  uniqueActive_invariant _ emptyState uniqueActive_emptyState 0x12345678 (by decide)

/-- C2 (code bug): The claim says `add(id=0, name)` fails with the
invalid-argument error before any mutation. The source's duplicate scan
requires `card_id != 0`, and no separate `id == 0` check exists, so on
the default table `add(0, "x")` completes with `ESP_OK`, writes slot 3
(`card_id = 0`, `active = 1`), sets the dirty flag and arms the write
timer — contradicting the claim at this input. -/
theorem addZero_not_rejected :
    (addCard true 0 (some (strBytes "x")) 7 true defState).1 = .ok ∧
    (addCard true 0 (some (strBytes "x")) 7 true defState).1 ≠ .invalidArg ∧
    (addCard true 0 (some (strBytes "x")) 7 true defState).2.db ≠ defState.db ∧
    (addCard true 0 (some (strBytes "x")) 7 true defState).2.is_dirty = true ∧
    (addCard true 0 (some (strBytes "x")) 7 true defState).2.timerRunning = true := by
  refine ⟨by decide, by decide, ?_, by decide, by decide⟩
  decide

/-- C3 (code bug): The claim says that after every completed
mutation no slot has `active=true` together with `card_id==0`. The
completed mutation `add(0, "zero")` on the default table leaves slot 3
with `card_id = 0` and `active = 1`, so the invariant is violated. -/
theorem activeZeroId_reachable :
    (addCard true 0 (some (strBytes "zero")) 9 true defState).1 = .ok ∧
    0 < ((addCard true 0 (some (strBytes "zero")) 9 true defState).2.db.countP
      fun c => c.active != 0 && c.card_id == 0) := by
  refine ⟨by decide, ?_⟩
  decide

/-- C8 (code bug): The claim says every exposed operation surfaces a
lock-acquisition timeout as a distinguishable failure. For the JSON
render the source initializes `ret = ESP_OK` and has no `else` branch on
the mutex take, so a timed-out `rfid_manager_get_card_list_json` returns
`ESP_OK` — reporting success — with the caller's buffer untouched. -/
theorem jsonRender_lock_timeout_reports_ok :
    getCardListJson false 1024 defState = (.ok, none) ∧
    (getCardListJson false 1024 defState).1 ≠ .fail := by
  exact ⟨rfl, by decide⟩

/-- C4 counterexample: With the default table live in memory and a
present-but-wrong-size backing file, `load` returns an error yet the
live table is *not* left as it was: it has been `memset` to zero. -/
theorem load_error_clobbers_live_table :
    (loadFromFile { defState with file := some [] }).1 ≠ .ok ∧
    (loadFromFile { defState with file := some [] }).2.db ≠ defState.db := by
  refine ⟨by decide, ?_⟩
  decide

/-- C4 as amended: a load failure due to a missing file leaves the
live table untouched, but a failure due to a size mismatch leaves the
live table cleared to all-zero slots — the source zeroes the live array
and then reads the file directly into it, with no scratch buffer; only
the file-absent failure preserves the previous in-memory state. On full
success the file contents replace the live table. -/
theorem loadFromFile_effect (s : RfidState) (l : List Card) :
    (s.file = none → loadFromFile s = (.notFound, s)) ∧
    (s.file = some l → l.length ≠ RFID_MAX_CARDS →
      loadFromFile s =
        (.invalidSize, { s with db := List.replicate RFID_MAX_CARDS emptyCard })) ∧
    (s.file = some l → l.length = RFID_MAX_CARDS →
      loadFromFile s = (.ok, { s with db := l })) := by
  refine ⟨fun h => ?_, fun h hlen => ?_, fun h hlen => ?_⟩
  · simp [loadFromFile, h]
  · simp [loadFromFile, h, hlen]
  · simp [loadFromFile, h, hlen]

/-- Witness for the amended **C4**: at the concrete wrong-size file the
load returns the size-mismatch error with the live table zeroed. -/
theorem loadFromFile_effect_witness :
    loadFromFile { defState with file := some [] } =
      (.invalidSize,
        { defState with file := some [], db := List.replicate RFID_MAX_CARDS emptyCard }) :=
  (loadFromFile_effect { defState with file := some [] } []).2.1 rfl (by decide)

/-- C5: A successful save followed by a successful load, with no
mutation in between, reproduces an identical in-memory table — record for
record, including tombstoned (`active=0`, nonzero id) and never-used
(`card_id=0`) slots — because save writes all `RFID_MAX_CARDS` slots and
load reads them all back. -/
theorem save_load_roundtrip (s : RfidState) (hlen : s.db.length = RFID_MAX_CARDS) :
    saveToFile true s = (.ok, { s with file := some s.db }) ∧
    loadFromFile { s with file := some s.db } = (.ok, { s with file := some s.db }) ∧
    (loadFromFile (saveToFile true s).2).2.db = s.db := by
  refine ⟨rfl, ?_, ?_⟩ <;> simp [loadFromFile, saveToFile, hlen]

/-- Witness for **C5**: round trip at a concrete table containing an
active record, a tombstone and empty slots. -/
theorem save_load_roundtrip_witness :
    (loadFromFile (saveToFile true tombstoneState).2).2.db = tombstoneState.db :=
  (save_load_roundtrip tombstoneState (by simp [tombstoneState, RFID_MAX_CARDS])).2.2

/-- Lemma: `firstFree` returns an index holding an eligible slot
(`card_id == 0 || active == 0`), and no smaller index holds one. -/
theorem firstFree_spec (l : List Card) :
    ∀ j, firstFree l = some j →
      ∃ c, l[j]? = some c ∧ (c.card_id = 0 ∨ c.active = 0) ∧
        ∀ i, i < j → ∀ ci, l[i]? = some ci → ¬(ci.card_id = 0 ∨ ci.active = 0) := by
  induction l with
  | nil => intro j h; simp [firstFree] at h
  | cons a t ih =>
    intro j h
    by_cases ha : (a.card_id == 0 || a.active == 0) = true
    · rw [firstFree, if_pos ha] at h
      obtain rfl : (0 : Nat) = j := Option.some.inj h
      refine ⟨a, by simp, by simpa using ha, ?_⟩
      intro i hi
      omega
    · rw [firstFree, if_neg ha] at h
      obtain ⟨j1, hj1, rfl⟩ := Option.map_eq_some'.mp h
      obtain ⟨c, hc, hcfree, hmin⟩ := ih j1 hj1
      refine ⟨c, by simpa using hc, hcfree, ?_⟩
      intro i hi ci hci
      cases i with
      | zero =>
        obtain rfl : a = ci := by simpa using hci
        simpa using ha
      | succ i1 =>
        exact hmin i1 (by omega) ci (by simpa using hci)

/-- If some slot is eligible, the `firstFree` scan finds one. -/
theorem firstFree_isSome_of (l : List Card)
    (h : ∃ c ∈ l, c.card_id = 0 ∨ c.active = 0) : ∃ j, firstFree l = some j := by
  induction l with
  | nil => simp at h
  | cons a t ih =>
    by_cases ha : (a.card_id == 0 || a.active == 0) = true
    · exact ⟨0, by rw [firstFree, if_pos ha]⟩
    · have ht : ∃ c ∈ t, c.card_id = 0 ∨ c.active = 0 := by
        rcases h with ⟨c, hc, hcfree⟩
        rcases List.mem_cons.mp hc with rfl | hct
        · exact absurd (by simpa using hcfree) (by simpa using ha)
        · exact ⟨c, hct, hcfree⟩
      rcases ih ht with ⟨j, hj⟩
      refine ⟨j + 1, ?_⟩
      rw [firstFree, if_neg ha, hj]
      rfl

/-- C6: If the nonzero id being added occupies no slot and the scan
finds a free slot (one with `card_id==0` or `active==0`) at index `j`,
then `j` is the smallest index of a free slot, `add` writes exactly the
new record — the id, the truncated null-terminated name, `active=1`, the
current timestamp — into slot `j`, and every other slot is unchanged. -/
theorem add_first_fit (s : RfidState) (id : Nat) (ns : List Nat) (now : Nat)
    (saveOk : Bool) (j : Nat) (_hid : id ≠ 0)
    (habsent : ∀ c ∈ s.db, c.card_id ≠ id)
    (hj : firstFree s.db = some j) :
    (∃ cj, s.db[j]? = some cj ∧ (cj.card_id = 0 ∨ cj.active = 0)) ∧
    (∀ i, i < j → ∀ ci, s.db[i]? = some ci → ¬(ci.card_id = 0 ∨ ci.active = 0)) ∧
    ((addCard true id (some ns) now saveOk s).2).db = s.db.set j (mkAddedCard id ns now) ∧
    (∀ i, i ≠ j → ((addCard true id (some ns) now saveOk s).2).db[i]? = s.db[i]?) := by
  obtain ⟨cj, hcj, hcjfree, hmin⟩ := firstFree_spec s.db j hj
  have hdup : (s.db.any fun c => c.card_id == id && c.card_id != 0) = false := by
    rw [List.any_eq_false]
    intro c hc
    simp only [Bool.and_eq_true, beq_iff_eq, bne_iff_ne, ne_eq, not_and]
    intro h1 _
    exact habsent c hc h1
  have hdb : ((addCard true id (some ns) now saveOk s).2).db =
      s.db.set j (mkAddedCard id ns now) := by
    unfold addCard
    simp [hdup, hj, startOrWrite_db]
  refine ⟨⟨cj, hcj, hcjfree⟩, hmin, hdb, ?_⟩
  intro i hij
  rw [hdb]
  exact List.getElem?_set_ne (Ne.symm hij)

/-- Witness for **C6**: on the concrete table with an active slot 0 and a
tombstone at index 1, adding a fresh id writes the new record into
slot 1 — the first-fit tombstone slot. -/
theorem add_first_fit_witness :
    ((addCard true 0xEEFF (some (strBytes "fresh")) 21 true tombstoneState).2).db =
      tombstoneState.db.set 1 (mkAddedCard 0xEEFF (strBytes "fresh") 21) :=
  (add_first_fit tombstoneState 0xEEFF (strBytes "fresh") 21 true 1
    (by decide) (by decide) (by decide)).2.2.1

/-- C7: If some slot already holds the nonzero id being added —
active or tombstoned — `add` fails with the already-exists error
(`ESP_ERR_INVALID_STATE`; the source logs "already exists" there, and
the declared `RFID_MANAGER_ERR_DUPLICATE_ID` constant is never used)
and the whole state, every slot included, is unchanged. -/
theorem add_duplicate_rejected (s : RfidState) (id : Nat) (ns : List Nat) (now : Nat)
    (saveOk : Bool) (hid : id ≠ 0) (hdup : ∃ c ∈ s.db, c.card_id = id) :
    addCard true id (some ns) now saveOk s = (.invalidState, s) := by
  have hany : (s.db.any fun c => c.card_id == id && c.card_id != 0) = true := by
    rcases hdup with ⟨c, hc, hcid⟩
    rw [List.any_eq_true]
    exact ⟨c, hc, by simp [hcid, hid]⟩
  unfold addCard
  simp [hany]

/-- Witness for **C7**: re-adding the tombstoned id `0xCCDD` (strict
duplicate policy: even a removed id is rejected) leaves the state
untouched and reports the duplicate error. -/
theorem add_duplicate_rejected_witness :
    addCard true 0xCCDD (some (strBytes "dup")) 3 true tombstoneState =
      (.invalidState, tombstoneState) :=
  add_duplicate_rejected tombstoneState 0xCCDD (strBytes "dup") 3 true
    (by decide) (by decide)

/-- C9: A successful `format` (lock obtained, file write succeeded)
with the timer handle present clears every slot, installs the three
compiled-in default records in the first slots, cancels any pending
coalescing timer, clears the dirty flag, and synchronously writes the
full table to the backing file — for every configured cache timeout, the
timeout being irrelevant to format; afterwards the active card count is
exactly 3 and every stored name is null-terminated. -/
theorem format_resets_and_saves (s : RfidState) (ht : s.timerCreated = true) :
    formatDatabase true true s =
      (.ok, { s with db := defaultsTable, timerRunning := false, is_dirty := false, file := some defaultsTable }) ∧
    (formatDatabase true true s).2.db.take default_cards.length = default_cards ∧
    getCardCount true (formatDatabase true true s).2 = 3 ∧
    ∀ c ∈ (formatDatabase true true s).2.db, c.name.getLast? = some 0 := by
  have h1 : formatDatabase true true s =
      (.ok, { s with db := defaultsTable, timerRunning := false, is_dirty := false, file := some defaultsTable }) := by
    rcases s with ⟨db, d, tc, tr, tm, f⟩
    simp only at ht
    subst ht
    simp [formatDatabase]
  have hcount : defaultsTable.countP (fun c => c.active != 0 && c.card_id != 0) = 3 := by
    decide
  have hnames : ∀ c ∈ defaultsTable, c.name.getLast? = some 0 := by decide
  refine ⟨h1, ?_, ?_, ?_⟩ <;> rw [h1]
  · rfl
  · simpa [getCardCount] using hcount
  · simpa using hnames

/-- Witness for **C9**: format applied at the concrete tombstone state. -/
theorem format_resets_and_saves_witness :
    getCardCount true (formatDatabase true true tombstoneState).2 = 3 :=
  (format_resets_and_saves tombstoneState (by decide)).2.2.1

/-- C10: With pending unsaved changes (`is_dirty`), the timer handle
present, and a previously positive cache timeout, `set_cache_timeout(0)`
attempts an immediate save and clears the dirty flag *unconditionally* —
here the save fails (`saveOk = false`), the file is unchanged, yet the
state comes back with `is_dirty = false` and `ESP_OK`; whereas
`flush_cache` under the same failing save returns `ESP_FAIL` and leaves
`is_dirty = true`, keeping the changes marked for retry. -/
theorem setCacheTimeoutZero_vs_flush (s : RfidState) (hd : s.is_dirty = true)
    (ht : s.timerCreated = true) (hpos : 0 < s.rfid_write_timeout_ms) :
    setCacheTimeout true 0 false s =
      (.ok, { s with timerRunning := false, is_dirty := false, rfid_write_timeout_ms := 0 }) ∧
    (setCacheTimeout true 0 false s).2.file = s.file ∧
    flushCache true false s = (.fail, { s with timerRunning := false }) := by
  rcases s with ⟨db, d, tc, tr, tm, f⟩
  simp only at hd ht hpos
  subst hd
  subst ht
  refine ⟨?_, ?_, ?_⟩ <;>
    simp [setCacheTimeout, flushCache, saveToFile, hpos]

/-- Witness for **C10**: at a concrete dirty state the failed save via
`set_cache_timeout(0)` still clears the dirty flag while `flush_cache`
keeps it set. -/
theorem setCacheTimeoutZero_vs_flush_witness :
    (setCacheTimeout true 0 false { defState with is_dirty := true }).2.is_dirty = false ∧
    (flushCache true false { defState with is_dirty := true }).2.is_dirty = true := by
  have h := setCacheTimeoutZero_vs_flush { defState with is_dirty := true }
    rfl rfl (by decide)
  exact ⟨by rw [h.1], by rw [h.2.2]⟩

end RfidManager
